import Mathlib

/-!
Verification of the wd-mta message bridging engine.

This file gives a shallow embedding of the engine's core:
* the polymorphic message-content decoder (`MessageContent.from_raw` in
  `wd_mta/whatsapp.py`),
* the webhook ingestion path (`WhatsAppClient._handle_webhook`),
* the binding store and its admin operations (`WhatsAppCog._binding_set`,
  `_binding_remove`, `_binding_clear`, `_binding_pause`, `_binding_resume`
  in `wd_mta/cogs/whatsapp.py`),
* the forwarding pipeline (`WhatsAppCog._process_whatsapp_message`,
  `_handle_message_content`, `_send_forwarded_message_to_channel`) with its
  per-source-message delivery cache.

Python data is modelled explicitly: JSON trees as `JValue`; `dict` as an
insertion-ordered association list with overwrite-in-place insertion;
`OrderedDict` likewise, with `popitem(last=False)` dropping the head.
Runtime exceptions (`KeyError`, `TypeError`, typeguard's check failures,
JSON decode errors, and `RuntimeError` from mutating a dict during
iteration) are modelled as values of `PyError` in an `Except` monad.
Object aliasing of the shared embeds list in the forwarding loop is
modelled by threading one list value through the whole per-message run.
-/

namespace WdMta

/-- Python runtime exceptions that can escape the modelled code paths. -/
inductive PyError where
  | keyError (k : String)
  | typeError
  | attributeError
  | typeCheckError
  | jsonDecodeError
  | valueError
  | indexError
  | dictMutatedDuringIteration
  deriving DecidableEq, Repr

/-- JSON values, as produced by Python's `json.loads`: objects are
insertion-ordered key/value lists (duplicate keys collapse, last value
wins, at parse time). -/
inductive JValue where
  | null
  | bool (b : Bool)
  | num (n : Int)
  | str (s : String)
  | arr (xs : List JValue)
  | obj (fields : List (String × JValue))
  deriving Repr

/-- Python `dict` lookup on an insertion-ordered association list
(keys are unique by construction, so first match is the match). -/
def dget {α : Type} (l : List (String × α)) (k : String) : Option α :=
  match l with
  | [] => none
  | (k', v) :: rest => if k' = k then some v else dget rest k

/-- Python `dict` assignment: overwrite in place when the key exists
(insertion position is kept), append otherwise. -/
def dinsert {α : Type} (l : List (String × α)) (k : String) (v : α) :
    List (String × α) :=
  match l with
  | [] => [(k, v)]
  | (k', v') :: rest =>
      if k' = k then (k', v) :: rest else (k', v') :: dinsert rest k v

/-- Python `del d[k]`: remove the (unique) entry with key `k`,
preserving the order of the remaining entries. -/
def ddel {α : Type} (l : List (String × α)) (k : String) : List (String × α) :=
  match l with
  | [] => []
  | (k', v') :: rest =>
      if k' = k then rest else (k', v') :: ddel rest k

theorem dget_sizeOf_lt {l : List (String × JValue)} {k : String} {v : JValue}
    (h : dget l k = some v) : sizeOf v < sizeOf l := by
  induction l with
  | nil => simp [dget] at h
  | cons hd tl ih =>
      obtain ⟨k', v'⟩ := hd
      by_cases hk : k' = k
      · simp [dget, hk] at h
        subst h
        simp
        omega
      · simp [dget, hk] at h
        have := ih h
        simp
        omega

/-- The tag keys statically registered on `MessageContent._registry`
(populated by `__init_subclass__` in class-definition order). -/
def registryKeys : List String :=
  ["reactionMessage", "conversation", "extendedTextMessage",
   "stickerMessage", "imageMessage", "videoMessage", "pollCreationMessage"]

/-- First key of the payload (in Python dict iteration order, i.e.
insertion order) that is present in the registry, with its value:
the `for key in data` scan of `MessageContent.from_raw`. -/
def firstTag (fields : List (String × JValue)) : Option (String × JValue) :=
  match fields with
  | [] => none
  | (k, v) :: rest =>
      if registryKeys.contains k then some (k, v) else firstTag rest

theorem firstTag_sizeOf_lt {fields : List (String × JValue)}
    {k : String} {d : JValue} (h : firstTag fields = some (k, d)) :
    sizeOf d < sizeOf fields := by
  induction fields with
  | nil => simp [firstTag] at h
  | cons hd tl ih =>
      obtain ⟨k', v'⟩ := hd
      rw [firstTag] at h
      split at h
      · obtain ⟨h1, h2⟩ := Option.some.inj h |> Prod.mk.inj
        subst h2
        simp
        omega
      · have := ih h
        simp
        omega

/-- The quote extraction of `MessageContent.__init__`:
`data.get("contextInfo", {}).get("quotedMessage")`, skipped entirely when
`data` is not a dict; a present but non-dict `contextInfo` has no `.get`
and raises `AttributeError`; a `null` or absent `quotedMessage` counts as
no quote (both read back as Python `None`). -/
def pyGetQuoted (d : JValue) : Except PyError (Option JValue) :=
  match d with
  | .obj fs =>
      match dget fs "contextInfo" with
      | none => .ok none
      | some (.obj cs) =>
          match dget cs "quotedMessage" with
          | none => .ok none
          | some .null => .ok none
          | some q => .ok (some q)
      | some _ => .error .attributeError
  | _ => .ok none

theorem pyGetQuoted_sizeOf_lt {d q : JValue}
    (h : pyGetQuoted d = .ok (some q)) : sizeOf q < sizeOf d := by
  unfold pyGetQuoted at h
  split at h
  case _ fs =>
    split at h
    · exact absurd h (by simp)
    case _ ci cs hc =>
      have hci : sizeOf (JValue.obj cs) < sizeOf fs := dget_sizeOf_lt hc
      split at h
      · exact absurd h (by simp)
      · exact absurd h (by simp)
      case _ qv hnull hq =>
        have hqv : sizeOf qv < sizeOf cs := dget_sizeOf_lt hq
        have hqq : qv = q := by
          have := Except.ok.inj h
          exact Option.some.inj this
        subst hqq
        simp at hci
        simp
        omega
    · exact absurd h (by simp)
  · exact absurd h (by simp)

/-- The decoded message-content model: one variant per registered wire
tag, each carrying the optional decoded quote (`MessageContent.quote`). -/
inductive MessageContent where
  | unknown (quote : Option MessageContent)
  | reaction (quote : Option MessageContent) (target_id : String)
      (text : Option String)
  | text (quote : Option MessageContent) (text : String)
  | media (quote : Option MessageContent) (caption : Option String)
      (url : String) (mimetype : String) (media_key : String)
      (length : Int) (sha256 : String) (enc_sha256 : String)
  | poll (quote : Option MessageContent) (name : String)
      (options : Option (List String)) (multiple_allowed : Option Bool)
  deriving Repr

/-- The `quote` slot shared by every variant. -/
def MessageContent.quote : MessageContent → Option MessageContent
  | .unknown q => q
  | .reaction q _ _ => q
  | .text q _ => q
  | .media q _ _ _ _ _ _ _ => q
  | .poll q _ _ _ => q

/-- typeguard's `check_type(x, str)`. -/
def checkStr : JValue → Except PyError String
  | .str s => .ok s
  | _ => .error .typeCheckError

/-- typeguard's `check_type(x, str | None)` applied to a `dict.get`
result (absent and JSON `null` both read back as Python `None`). -/
def checkOptStr : Option JValue → Except PyError (Option String)
  | none => .ok none
  | some .null => .ok none
  | some (.str s) => .ok (some s)
  | some _ => .error .typeCheckError

/-- typeguard's `check_type(x, int)`; Python `bool` is a subtype of
`int`, so booleans pass. -/
def checkInt : JValue → Except PyError Int
  | .num n => .ok n
  | .bool b => .ok (if b then 1 else 0)
  | _ => .error .typeCheckError

/-- Python `d[k]` on a JSON value: a `dict` lookup raising `KeyError` on
a missing key; indexing anything else with a string key raises
`TypeError`. -/
def pyIndex (d : JValue) (k : String) : Except PyError JValue :=
  match d with
  | .obj fields =>
      match dget fields k with
      | some v => .ok v
      | none => .error (.keyError k)
  | _ => .error .typeError

/-- Python `d.get(k)` on a JSON value: only dicts have `.get`. -/
def pyGet (d : JValue) (k : String) : Except PyError (Option JValue) :=
  match d with
  | .obj fields => .ok (dget fields k)
  | _ => .error .attributeError

/-- The `options` extraction of `PollMessageContent.__init__`:
`[check_type(option["optionName"], str) for option in options]`. -/
def pollOptions : List JValue → Except PyError (List String)
  | [] => .ok []
  | opt :: rest => do
      let nameVal ← pyIndex opt "optionName"
      let name ← checkStr nameVal
      let others ← pollOptions rest
      .ok (name :: others)

/-- Variant construction from the selected tag's sub-object, after the
base `__init__` has produced `quote`: the field-extraction bodies of
`ReactionMessageContent`, `TextMessageContent`, `MediaMessageContent`
and `PollMessageContent`, keyed exactly as their `keys=` registrations. -/
def construct (key : String) (d : JValue) (quote : Option MessageContent) :
    Except PyError MessageContent :=
  if key = "reactionMessage" then do
    let keyObj ← pyIndex d "key"
    let idVal ← pyIndex keyObj "ID"
    let target_id ← checkStr idVal
    let text ← checkOptStr (← pyGet d "text")
    .ok (.reaction quote target_id text)
  else if key = "conversation" then do
    let t ← checkStr d
    .ok (.text quote t)
  else if key = "extendedTextMessage" then do
    let t ← checkStr (← pyIndex d "text")
    .ok (.text quote t)
  else if key = "stickerMessage" ∨ key = "imageMessage" ∨
      key = "videoMessage" then do
    let caption ← checkOptStr (← pyGet d "caption")
    let url ← checkStr (← pyIndex d "URL")
    let mimetype ← checkStr (← pyIndex d "mimetype")
    let media_key ← checkStr (← pyIndex d "mediaKey")
    let length ← checkInt (← pyIndex d "fileLength")
    let sha256 ← checkStr (← pyIndex d "fileSHA256")
    let enc_sha256 ← checkStr (← pyIndex d "fileEncSHA256")
    .ok (.media quote caption url mimetype media_key length sha256 enc_sha256)
  else if key = "pollCreationMessage" then do
    let name ← checkStr (← pyIndex d "name")
    let options ← (do
      match ← pyGet d "options" with
      | none => (.ok none : Except PyError (Option (List String)))
      | some .null => .ok none
      | some (.arr opts) => do
          let res ← pollOptions opts
          .ok (some res)
      | some _ => .error .typeError)
    let multiple ← (do
      match ← pyGet d "selectableOptionsCount" with
      | none => (.ok none : Except PyError (Option Bool))
      | some .null => .ok none
      | some v => do
          let n ← checkInt v
          .ok (some (n = 0 : Bool)))
    .ok (.poll quote name options multiple)
  else
    .error .typeError

/-- The `for key in data` scan of `from_raw` applied to a Python *list*
(possible when a quoted payload is a JSON array): registered string
elements lead to `data[key]` on a list, a `TypeError`; list or dict
elements are unhashable and `dict.get` raises `TypeError`; any other
element just fails the registry lookup. -/
def fromRawArrScan : List JValue → Except PyError MessageContent
  | [] => .ok (.unknown none)
  | x :: rest =>
      match x with
      | .str s =>
          if registryKeys.contains s then .error .typeError
          else fromRawArrScan rest
      | .arr _ => .error .typeError
      | .obj _ => .error .typeError
      | _ => fromRawArrScan rest

/-- `MessageContent.from_raw`: scan the payload's keys in order for the
first registered tag and build that variant from the tag's sub-object;
the variant's base `__init__` first recurses into
`contextInfo.quotedMessage` of the *sub-object* to produce the quote.
No registered key (or a non-dict iterable without one) yields
`UnknownMessageContent(None, key="")`, whose quote is `None`; iterating
a non-iterable payload raises `TypeError`. -/
def from_raw (v : JValue) : Except PyError MessageContent :=
  match v with
  | .obj fields =>
      match h : firstTag fields with
      | some (key, d) =>
          match hq : pyGetQuoted d with
          | .error e => .error e
          | .ok none => construct key d none
          | .ok (some q) =>
              match from_raw q with
              | .error e => .error e
              | .ok qc => construct key d (some qc)
      | none => .ok (.unknown none)
  | .str _ => .ok (.unknown none)
  | .arr xs => fromRawArrScan xs
  | .null => .error .typeError
  | .bool _ => .error .typeError
  | .num _ => .error .typeError
termination_by sizeOf v
decreasing_by
  have h1 := firstTag_sizeOf_lt h
  have h2 := pyGetQuoted_sizeOf_lt hq
  simp
  omega

/-- The `from_raw` branch for a payload whose key scan found the
registered tag `key` with sub-object `d`: quote resolution (the base
`__init__`) followed by variant field extraction. `from_raw` on an
object payload is exactly `decodeTagged` of the first registered tag
(`from_raw_obj_eq`). -/
def decodeTagged (key : String) (d : JValue) : Except PyError MessageContent :=
  (pyGetQuoted d).bind (fun o =>
    match o with
    | none => construct key d none
    | some q => (from_raw q).bind (fun qc => construct key d (some qc)))

theorem from_raw_obj_eq (fields : List (String × JValue)) :
    from_raw (.obj fields) =
      match firstTag fields with
      | some (key, d) => decodeTagged key d
      | none => .ok (.unknown none) := by
  rw [from_raw]
  cases h : firstTag fields with
  | none => rfl
  | some kd =>
      obtain ⟨key, d⟩ := kd
      simp only [decodeTagged]
      cases hq : pyGetQuoted d with
      | error e => rfl
      | ok o =>
          cases o with
          | none => rfl
          | some q => cases hr : from_raw q <;> simp [Except.bind, hr]

/-- Unquoted sub-object: `decodeTagged` is plain variant
construction. -/
theorem decodeTagged_unquoted {key : String} {d : JValue}
    (hq : pyGetQuoted d = .ok none) :
    decodeTagged key d = construct key d none := by
  unfold decodeTagged
  rw [hq]
  rfl

/-- Quote-bearing sub-object with a decodable quote: `decodeTagged` is
variant construction around the recursively decoded quote. -/
theorem decodeTagged_quoted {key : String} {d q : JValue}
    {qc : MessageContent} (hq : pyGetQuoted d = .ok (some q))
    (hr : from_raw q = .ok qc) :
    decodeTagged key d = construct key d (some qc) := by
  unfold decodeTagged
  rw [hq]
  show (from_raw q).bind (fun qc => construct key d (some qc)) =
    construct key d (some qc)
  rw [hr]
  rfl

/- ------------------------------------------------------------------ -/
/- Webhook ingestion (`WhatsAppClient._handle_webhook`)               -/
/- ------------------------------------------------------------------ -/

/-- JSON string-literal body (after the opening quote): plain characters
until the closing quote, with the common escapes. -/
def parseJStr : List Char → Except PyError (String × List Char)
  | [] => .error .jsonDecodeError
  | c :: rest =>
      if c = '"' then .ok ("", rest)
      else if c = '\\' then
        match rest with
        | [] => .error .jsonDecodeError
        | e :: rest2 =>
            let dec : Except PyError Char :=
              if e = '"' then .ok '"'
              else if e = '\\' then .ok '\\'
              else if e = '/' then .ok '/'
              else if e = 'n' then .ok '\n'
              else if e = 't' then .ok '\t'
              else if e = 'r' then .ok '\r'
              else .error .jsonDecodeError
            match dec with
            | .error er => .error er
            | .ok ch =>
                match parseJStr rest2 with
                | .ok (s, rem) => .ok (⟨ch :: s.data⟩, rem)
                | .error er => .error er
      else
        match parseJStr rest with
        | .ok (s, rem) => .ok (⟨c :: s.data⟩, rem)
        | .error er => .error er

def jsonWs (c : Char) : Bool :=
  c = ' ' ∨ c = '\t' ∨ c = '\n' ∨ c = '\r'

def skipWs : List Char → List Char
  | [] => []
  | c :: rest => if jsonWs c then skipWs rest else c :: rest

def parseDigits : List Char → (List Char × List Char)
  | [] => ([], [])
  | c :: rest =>
      if c.isDigit then
        let (ds, r) := parseDigits rest
        (c :: ds, r)
      else ([], c :: rest)

def digitsToNat (ds : List Char) : Nat :=
  ds.foldl (fun a c => a * 10 + (c.toNat - 48)) 0

mutual

/-- Recursive-descent model of Python's `json.loads` value grammar,
restricted to the integer-number subset (the engine's payloads carry no
float literals); `fuel` bounds the recursion depth and is supplied with
the input length, which suffices since every recursive call consumes at
least one character. -/
def parseValue (fuel : Nat) (cs : List Char) :
    Except PyError (JValue × List Char) :=
  match fuel with
  | 0 => .error .jsonDecodeError
  | fuel + 1 =>
      match skipWs cs with
      | [] => .error .jsonDecodeError
      | c :: rest =>
          if c = '"' then
            match parseJStr rest with
            | .ok (s, rem) => .ok (.str s, rem)
            | .error e => .error e
          else if c = 'n' then
            match rest with
            | 'u' :: 'l' :: 'l' :: rem => .ok (.null, rem)
            | _ => .error .jsonDecodeError
          else if c = 't' then
            match rest with
            | 'r' :: 'u' :: 'e' :: rem => .ok (.bool true, rem)
            | _ => .error .jsonDecodeError
          else if c = 'f' then
            match rest with
            | 'a' :: 'l' :: 's' :: 'e' :: rem => .ok (.bool false, rem)
            | _ => .error .jsonDecodeError
          else if c = '-' then
            match parseDigits rest with
            | ([], _) => .error .jsonDecodeError
            | (ds, rem) => .ok (.num (-(digitsToNat ds : Int)), rem)
          else if c.isDigit then
            match parseDigits (c :: rest) with
            | ([], _) => .error .jsonDecodeError
            | (ds, rem) => .ok (.num (digitsToNat ds : Int), rem)
          else if c = '[' then
            parseArrItems fuel rest true []
          else if c = '{' then
            parseObjItems fuel rest true []
          else .error .jsonDecodeError

/-- Array items after `[`; `first` is true before the first item. -/
def parseArrItems (fuel : Nat) (cs : List Char) (first : Bool)
    (acc : List JValue) : Except PyError (JValue × List Char) :=
  match fuel with
  | 0 => .error .jsonDecodeError
  | fuel + 1 =>
      match skipWs cs with
      | [] => .error .jsonDecodeError
      | c :: rest =>
          if c = ']' ∧ first then .ok (.arr [], rest)
          else
            match parseValue fuel (c :: rest) with
            | .error e => .error e
            | .ok (v, rem) =>
                match skipWs rem with
                | ',' :: rem2 => parseArrItems fuel rem2 false (acc ++ [v])
                | ']' :: rem2 => .ok (.arr (acc ++ [v]), rem2)
                | _ => .error .jsonDecodeError

/-- Object members after an opening brace; duplicate keys overwrite in
place, as when Python builds the dict. -/
def parseObjItems (fuel : Nat) (cs : List Char) (first : Bool)
    (acc : List (String × JValue)) : Except PyError (JValue × List Char) :=
  match fuel with
  | 0 => .error .jsonDecodeError
  | fuel + 1 =>
      match skipWs cs with
      | [] => .error .jsonDecodeError
      | c :: rest =>
          if c = '}' ∧ first then .ok (.obj [], rest)
          else if c = '"' then
            match parseJStr rest with
            | .error e => .error e
            | .ok (k, rem) =>
                match skipWs rem with
                | ':' :: rem2 =>
                    match parseValue fuel rem2 with
                    | .error e => .error e
                    | .ok (v, rem3) =>
                        match skipWs rem3 with
                        | ',' :: rem4 =>
                            parseObjItems fuel rem4 false (dinsert acc k v)
                        | '}' :: rem4 => .ok (.obj (dinsert acc k v), rem4)
                        | _ => .error .jsonDecodeError
                | _ => .error .jsonDecodeError
          else .error .jsonDecodeError

end

/-- `json.loads`: parse one value and require only whitespace after it
("Extra data" is a decode error). -/
def json_loads (s : String) : Except PyError JValue :=
  match parseValue (s.length + 1) s.data with
  | .error e => .error e
  | .ok (v, rem) =>
      if (skipWs rem).isEmpty then .ok v else .error .jsonDecodeError

def hexDigitVal (c : Char) : Option Nat :=
  if c.isDigit then some (c.toNat - 48)
  else if 'a' ≤ c ∧ c ≤ 'f' then some (c.toNat - 87)
  else if 'A' ≤ c ∧ c ≤ 'F' then some (c.toNat - 55)
  else none

/-- `%XX` percent-decoding; invalid escapes are left untouched, as in
`urllib.parse.unquote`. Multi-byte UTF-8 sequences are out of scope:
the modelled bodies are single-byte. -/
def percentDecode : List Char → List Char
  | [] => []
  | '%' :: a :: b :: rest =>
      match hexDigitVal a, hexDigitVal b with
      | some ha, some hb => Char.ofNat (ha * 16 + hb) :: percentDecode rest
      | _, _ => '%' :: percentDecode (a :: b :: rest)
  | c :: rest => c :: percentDecode rest

/-- `urllib.parse.unquote_plus`: `+` becomes a space, then
percent-decode. -/
def unquote_plus (s : String) : String :=
  ⟨percentDecode (s.data.map (fun c => if c = '+' then ' ' else c))⟩

/-- `urllib.parse.unquote`: percent-decode only. -/
def unquote (s : String) : String :=
  ⟨percentDecode s.data⟩

def noNewline (cs : List Char) : Bool :=
  cs.all (· ≠ '\n')

/-- What `.*?$` accepts after the token separator: no newline, except
possibly a single final one (`$` also matches just before a trailing
newline). -/
def tokenTail (cs : List Char) : Bool :=
  noNewline cs ||
    (cs.getLast? = some '\n' && noNewline cs.dropLast)

/-- Backtracking search for the split of `_WEBHOOK_DATA_PATTERN`
(`^jsonData=(.+)&token=.*?$`): the greedy `(.+)` takes the longest
newline-free prefix `g` such that the remainder is `&token=` followed
by an admissible tail. Tries group lengths from `i` downward. -/
def tryTokenSplit (rest : List Char) : Nat → Option (List Char)
  | 0 => none
  | i + 1 =>
      let g := rest.take (i + 1)
      let after := rest.drop (i + 1)
      if noNewline g ∧ after.take 7 = "&token=".data ∧
          tokenTail (after.drop 7) then
        some g
      else tryTokenSplit rest i

/-- `re.match(_WEBHOOK_DATA_PATTERN, s)` with the extracted group:
anchored at the start, greedy on the JSON segment. -/
def matchEnvelope (s : String) : Option String :=
  let cs := s.data
  if cs.take 9 = "jsonData=".data then
    (tryTokenSplit (cs.drop 9) (cs.drop 9).length).map (fun g => ⟨g⟩)
  else none

/-- Python truthiness of a JSON-derived value. -/
def pyTruthy : JValue → Bool
  | .null => false
  | .bool b => b
  | .num n => n ≠ 0
  | .str s => s ≠ ""
  | .arr xs => ¬xs.isEmpty
  | .obj fs => ¬fs.isEmpty

/-- A decoded WhatsApp chat message (`whatsapp.Message`). The dataclass
performs no runtime checks; the model restricts the string-valued
`Info` fields to JSON strings and keeps the ISO timestamp as an opaque
string. -/
structure Message where
  id : String
  chat_id : String
  sender_id : String
  push_name : String
  is_from_me : Bool
  timestamp : String
  is_view_once : Bool
  is_ephemeral : Bool
  is_edit : Bool
  content : MessageContent
  deriving Repr

/-- Result of one webhook request: in every non-raising path the
handler returns `web.Response()`, an empty success body. `ignored`
covers both an unmatched envelope and a non-`"Message"` event type;
`forwarded` means the decoded `Message` was handed to `on_message`. -/
inductive WebhookOutcome where
  | ignored
  | forwarded (m : Message)
  deriving Repr

def checkStrField (v : JValue) : Except PyError String :=
  checkStr v

/-- `WhatsAppClient._handle_webhook` on the raw request body: double
percent-decode, envelope match (non-match is absorbed: empty success),
`json.loads` of the extracted segment (failures raise), dispatch on the
`type` field, and `Message` assembly. An `.ok` result is the empty
success response; an `.error` result is an exception escaping the
handler (the transport then reports a server error to the sender). -/
def handle_webhook (body : String) : Except PyError WebhookOutcome :=
  match matchEnvelope (unquote (unquote_plus body)) with
  | none => .ok .ignored
  | some seg => do
      let data ← json_loads seg
      let typeVal ← pyIndex data "type"
      match typeVal with
      | .str t =>
          if t = "Message" then do
            let event ← pyIndex data "event"
            let msgRaw ← pyIndex event "Message"
            let content ← from_raw msgRaw
            let info ← pyIndex event "Info"
            let idv ← checkStrField (← pyIndex info "ID")
            let chatv ← checkStrField (← pyIndex info "Chat")
            let senderv ← checkStrField (← pyIndex info "Sender")
            let fromMe ← pyIndex info "IsFromMe"
            let pushName ← checkStrField (← pyIndex info "PushName")
            let ts ← checkStrField (← pyIndex info "Timestamp")
            let eph ← pyIndex event "IsEphemeral"
            let vo1 ← pyIndex event "IsViewOnce"
            let vo2 ← pyIndex event "IsViewOnceV2"
            let vo3 ← pyIndex event "IsViewOnceV2Extension"
            let edited ← pyIndex event "IsEdit"
            .ok (.forwarded
              { id := idv
                chat_id := chatv
                sender_id := senderv
                push_name := pushName
                is_from_me := pyTruthy fromMe
                timestamp := ts
                is_view_once := pyTruthy vo1 || pyTruthy vo2 || pyTruthy vo3
                is_ephemeral := pyTruthy eph
                is_edit := pyTruthy edited
                content := content })
          else .ok .ignored
      | _ => .ok .ignored

/- ------------------------------------------------------------------ -/
/- Binding store (`WhatsAppCog` configuration and admin operations)   -/
/- ------------------------------------------------------------------ -/

/-- `ActiveBindingConfiguration`: per-direction forwarding flags. -/
structure ActiveBindingConfiguration where
  discord_to_whatsapp : Bool := false
  whatsapp_to_discord : Bool := false
  deriving DecidableEq, Repr

/-- `ActiveConfiguration`: the in-memory binding store. `bindings` maps
chat id → (channel id, stored as a string, → flags); both levels are
insertion-ordered Python dicts. -/
structure ActiveConfiguration where
  bindings_paused : Bool := false
  bindings : List (String × List (String × ActiveBindingConfiguration)) := []
  deriving DecidableEq, Repr

/-- `SavedBindingConfiguration` (TypedDict, total=False): both keys
optional in the persisted JSON. -/
structure SavedBindingConfiguration where
  discord_to_whatsapp : Option Bool := none
  whatsapp_to_discord : Option Bool := none
  deriving DecidableEq, Repr

/-- `SavedConfiguration` (TypedDict, total=False): shape of the
persisted configuration file. -/
structure SavedConfiguration where
  bindings_paused : Option Bool := none
  bindings : Option (List (String × List (String × SavedBindingConfiguration))) := none
  deriving DecidableEq, Repr

/-- `dataclasses.asdict` of the active configuration, as written by
`_save_config` (every field present). -/
def serialize (cfg : ActiveConfiguration) : SavedConfiguration :=
  { bindings_paused := some cfg.bindings_paused
    bindings := some (cfg.bindings.map (fun p =>
      (p.1, p.2.map (fun q =>
        (q.1, ({ discord_to_whatsapp := some q.2.discord_to_whatsapp
                 whatsapp_to_discord := some q.2.whatsapp_to_discord }
               : SavedBindingConfiguration)))))) }

/-- `_save_config`: a full rewrite of the configuration file with the
serialized in-memory state. The file is modelled by its decoded
content (`none` = absent). -/
def save_config (cfg : ActiveConfiguration) : Option SavedConfiguration :=
  some (serialize cfg)

/-- `_load_config`: absent file gives the empty default; otherwise
optional keys default (`bindings_paused` through a truthiness test:
a stored `false` falls back to the default `False`). -/
def load_config (file : Option SavedConfiguration) : ActiveConfiguration :=
  match file with
  | none => {}
  | some config =>
      { bindings_paused := (config.bindings_paused.getD false)
        bindings := (config.bindings.getD []).map (fun p =>
          (p.1, p.2.map (fun q =>
            (q.1, ({ discord_to_whatsapp := q.2.discord_to_whatsapp.getD false
                     whatsapp_to_discord := q.2.whatsapp_to_discord.getD false }
                   : ActiveBindingConfiguration))))) }

/-- The three values of the `direction` slash-command choice. -/
inductive Direction where
  | discordToWhatsApp
  | whatsappToDiscord
  | bidirectional
  deriving DecidableEq, Repr

/-- `direction[0]`: the first letter of the choice literal. -/
def directionFirstLetter : Direction → Char
  | .discordToWhatsApp => 'D'
  | .whatsappToDiscord => 'W'
  | .bidirectional => 'B'

/-- The flag pair `_binding_set` derives from the direction:
`direction[0] in set("DB")` and `direction[0] in set("WB")`. -/
def directionFlags (dir : Direction) : ActiveBindingConfiguration :=
  { discord_to_whatsapp :=
      directionFirstLetter dir = 'D' ∨ directionFirstLetter dir = 'B'
    whatsapp_to_discord :=
      directionFirstLetter dir = 'W' ∨ directionFirstLetter dir = 'B' }

inductive SetOutcome where
  | created
  | updated
  deriving DecidableEq, Repr

/-- Core of `_binding_set` after group/channel resolution: look up the
chat's inner dict (inserting a fresh empty one when absent or empty),
then create the binding only when the channel key is new — an existing
entry is left with its old flags while the command still reports
"Existing Binding Updated". `_save_config` runs on both paths. -/
def binding_set (cfg : ActiveConfiguration) (file : Option SavedConfiguration)
    (chat_id channel_id : String) (dir : Direction) :
    SetOutcome × ActiveConfiguration × Option SavedConfiguration :=
  let chat_bindings := (dget cfg.bindings chat_id).getD []
  match dget chat_bindings channel_id with
  | some _ =>
      let cfg' := cfg
      (SetOutcome.updated, cfg', save_config cfg')
  | none =>
      let inner := dinsert chat_bindings channel_id (directionFlags dir)
      let cfg' : ActiveConfiguration :=
        { cfg with bindings := dinsert cfg.bindings chat_id inner }
      (SetOutcome.created, cfg', save_config cfg')

inductive RemoveOutcome where
  | noBindings
  | removed
  | notFound
  deriving DecidableEq, Repr

/-- The scan loop of `_binding_remove`: first chat whose inner dict
contains the channel loses that entry, and the chat itself is pruned
when the inner dict becomes empty; the loop breaks at the first
match. -/
def removeScan (bindings : List (String × List (String × ActiveBindingConfiguration)))
    (channel_id : String) :
    Option (List (String × List (String × ActiveBindingConfiguration))) :=
  match bindings with
  | [] => none
  | (chat, inner) :: rest =>
      if (dget inner channel_id).isSome then
        let inner' := ddel inner channel_id
        some (if inner'.isEmpty then rest else (chat, inner') :: rest)
      else
        (removeScan rest channel_id).map (fun r => (chat, inner) :: r)

/-- `_binding_remove`: early return when no bindings are configured or
no chat binds the channel (no save on those paths); otherwise remove,
prune, and save. -/
def binding_remove (cfg : ActiveConfiguration)
    (file : Option SavedConfiguration) (channel_id : String) :
    RemoveOutcome × ActiveConfiguration × Option SavedConfiguration :=
  if cfg.bindings.isEmpty then (RemoveOutcome.noBindings, cfg, file)
  else
    match removeScan cfg.bindings channel_id with
    | some bindings' =>
        let cfg' : ActiveConfiguration := { cfg with bindings := bindings' }
        (RemoveOutcome.removed, cfg', save_config cfg')
    | none => (RemoveOutcome.notFound, cfg, file)

/-- How the channel-admin collaborator resolves a stored channel id. -/
inductive ResolvedChannel where
  | text
  | nonText
  deriving DecidableEq, Repr

/-- Per-binding totals reported by `_binding_clear`. -/
structure ClearOutcome where
  cleared : Nat := 0
  failed : Nat := 0
  missing : Nat := 0
  deriving DecidableEq, Repr

/-- The per-chat body of the `_binding_clear` loop: collect `to_clear`
(resolvable text channels, plus unresolvable ones when clearing
globally), count delete failures for text channels when deleting, and
drop the collected keys from the inner dict. -/
def clearChat (include_global preserve_channels : Bool)
    (resolveHere : String → Option ResolvedChannel)
    (deleteFails : String → Bool)
    (inner : List (String × ActiveBindingConfiguration)) :
    ClearOutcome × List (String × ActiveBindingConfiguration) :=
  let step := fun (acc : ClearOutcome ×
      List (String × ActiveBindingConfiguration)) (p : String × ActiveBindingConfiguration) =>
    let (o, kept) := acc
    match resolveHere p.1 with
    | some .text =>
        let failInc := if ¬preserve_channels ∧ deleteFails p.1 then 1 else 0
        ({ o with cleared := o.cleared + 1, failed := o.failed + failInc },
         kept)
    | _ =>
        if include_global then
          ({ o with cleared := o.cleared + 1, missing := o.missing + 1 }, kept)
        else (o, kept ++ [p])
  inner.foldl step ({}, [])

/-- `_binding_clear`: iterate every chat, clear the in-scope bindings
(collaborator delete failures are counted, never fatal), prune chats
whose inner dict became empty, and save. `resolveHere` stands for
`bot.get_channel` when `include_global` and the guild lookup
otherwise. -/
def binding_clear (cfg : ActiveConfiguration)
    (file : Option SavedConfiguration)
    (include_global preserve_channels : Bool)
    (resolveHere : String → Option ResolvedChannel)
    (deleteFails : String → Bool) :
    ClearOutcome × ActiveConfiguration × Option SavedConfiguration :=
  let step := fun (acc : ClearOutcome ×
      List (String × List (String × ActiveBindingConfiguration)))
      (p : String × List (String × ActiveBindingConfiguration)) =>
    let (o, bs) := acc
    let (o', inner') :=
      clearChat include_global preserve_channels resolveHere deleteFails p.2
    ({ cleared := o.cleared + o'.cleared, failed := o.failed + o'.failed,
       missing := o.missing + o'.missing }, bs ++ [(p.1, inner')])
  let (outcome, cleared) := cfg.bindings.foldl step ({}, [])
  let pruned := cleared.filter (fun p => ¬p.2.isEmpty)
  let cfg' : ActiveConfiguration := { cfg with bindings := pruned }
  (outcome, cfg', save_config cfg')

inductive PauseOutcome where
  | alreadyPaused
  | paused
  deriving DecidableEq, Repr

/-- `_binding_pause`: an already-paused store is reported distinctly and
left untouched; otherwise the flag is set. Neither path calls
`_save_config`, so the file is never rewritten here. -/
def binding_pause (cfg : ActiveConfiguration)
    (file : Option SavedConfiguration) :
    PauseOutcome × ActiveConfiguration × Option SavedConfiguration :=
  if cfg.bindings_paused then (PauseOutcome.alreadyPaused, cfg, file)
  else (PauseOutcome.paused, { cfg with bindings_paused := true }, file)

inductive ResumeOutcome where
  | notPaused
  | resumed
  deriving DecidableEq, Repr

/-- `_binding_resume`: a store that is not paused is reported distinctly
and left untouched; otherwise the handler assigns
`bindings_paused = True` (the literal in the source), leaving the store
paused. Neither path calls `_save_config`. -/
def binding_resume (cfg : ActiveConfiguration)
    (file : Option SavedConfiguration) :
    ResumeOutcome × ActiveConfiguration × Option SavedConfiguration :=
  if ¬cfg.bindings_paused then (ResumeOutcome.notPaused, cfg, file)
  else (ResumeOutcome.resumed, { cfg with bindings_paused := true }, file)

/- ------------------------------------------------------------------ -/
/- Forwarding pipeline and delivery cache                             -/
/- ------------------------------------------------------------------ -/

/-- The outbound embed fields the pipeline reads or writes.
`discord.Embed` is an external collaborator; only the attributes the
cog touches are modelled. -/
structure Embed where
  title : Option String := none
  description : Option String := none
  colorRgb : Option (Nat × Nat × Nat) := none
  timestamp : Option String := none
  footerText : Option String := none
  authorName : Option String := none
  authorIcon : Option String := none
  deriving DecidableEq, Repr

/-- `ErrorEmbed(description=...)`: an `Embed` partial with the fixed
title and colour. -/
def ErrorEmbed (description : String) : Embed :=
  { title := some "Error", colorRgb := some (255, 30, 50),
    description := some description }

/-- Model of the external `discord.utils.escape_markdown` collaborator:
a backslash before each markdown metacharacter. -/
def escape_markdown (s : String) : String :=
  ⟨s.data.foldr (fun c acc =>
    if c = '*' ∨ c = '_' ∨ c = '~' ∨ c = '`' ∨ c = '|' ∨ c = '\\' then
      '\\' :: c :: acc
    else c :: acc) []⟩

/-- `_format_quote`: text content quotes its text, polls their name,
everything else an unsupported-content placeholder, each rendered as a
markdown-escaped quote line. -/
def format_quote (quote : MessageContent) : String :=
  let quote_str :=
    match quote with
    | .text _ t => t
    | .poll _ name _ _ => name
    | _ => "`< unsupported message content type >`"
  "> " ++ escape_markdown quote_str

/-- `embeds[-1].f = x` on a non-empty list. -/
def modifyLast (f : Embed → Embed) : List Embed → List Embed
  | [] => []
  | [e] => [f e]
  | e :: rest => e :: modifyLast f rest

/-- `embeds[0].f = x`. -/
def modifyHead (f : Embed → Embed) : List Embed → List Embed
  | [] => []
  | e :: rest => f e :: rest

/-- `_MessageForwardingParams`. The `embeds` entry of the Python dict
is a reference to the per-message shared list; aliasing is modelled by
threading the current list value through the loop and writing the
updated value back after each per-channel step. -/
structure MessageForwardingParams where
  channelId : String
  embeds : List Embed
  file : Option String
  message_id : String
  reference_id : Option String
  deriving Repr

/-- `_whatsapp_to_discord_messages`: source message id → insertion-
ordered (`OrderedDict`) destination channel id → delivered-message
handle. Handles are modelled as the sequence numbers of successful
sends. -/
abbrev MsgStore : Type :=
  List (String × List (String × Nat))

/-- One completed `channel.send`, with everything the call was given:
the embeds list as sent, the attached file (by temp-file suffix), the
resolved reply reference, and the handle the send returned. -/
structure SendRecord where
  channelId : String
  embeds : List Embed
  file : Option String
  reference : Option Nat
  handle : Nat
  deriving DecidableEq, Repr

/-- `_send_forwarded_message_to_channel`: resolve the reply reference
through the delivery cache (a miss appends a visible notice to the
shared embeds list instead of failing), send, record the new handle
under `(message_id, channel_id)`, and evict the oldest entry when the
per-message cache exceeds `message_cache_size`
(`popitem(last=False)`). Returns the updated cache, next handle
counter, the shared embeds list after the call, and the send. -/
def send_forwarded (message_cache_size : Nat) (store : MsgStore)
    (counter : Nat) (params : MessageForwardingParams) :
    MsgStore × Nat × List Embed × SendRecord :=
  let lookupRef := fun (rid : String) =>
    dget ((dget store rid).getD []) params.channelId
  let (embeds1, reference) :=
    match params.reference_id with
    | none => (params.embeds, (none : Option Nat))
    | some rid =>
        match lookupRef rid with
        | none =>
            (params.embeds ++
              [ErrorEmbed "The referenced message could not be retrieved."],
             none)
        | some h => (params.embeds, some h)
  let inner := (dget store params.message_id).getD []
  let handle := counter
  let inner1 := dinsert inner params.channelId handle
  let inner2 :=
    if inner1.length > message_cache_size then inner1.drop 1 else inner1
  let store' := dinsert store params.message_id inner2
  (store', counter + 1, embeds1,
   { channelId := params.channelId, embeds := embeds1, file := params.file,
     reference := reference, handle := handle })

/-- Outcome of `MediaMessageContent.fetch` (an outbound REST call):
either the decoded bytes (abstracted to their length) or a
`RequestError`. -/
inductive FetchOutcome where
  | fetched (size : Nat)
  | requestError
  deriving DecidableEq, Repr

/-- `content.mimetype.split("/", 1)[1]`: everything after the first
slash; no slash raises `IndexError`. -/
def mimetypeExt (mimetype : String) : Except PyError String :=
  match mimetype.splitOn "/" with
  | [] => .error .indexError
  | [_] => .error .indexError
  | _ :: rest => .ok (String.intercalate "/" rest)

/-- `_handle_message_content`: single dispatch over the content
variant. Unknown content suppresses the send entirely; reactions title
the last embed and mark the send as a reply to the target; text fills
the last embed's description; media fills the caption, then either
sends a size-limit placeholder (declared length over `media_maxsize`,
checked before any fetch), a download-failure placeholder, or the
fetched bytes as an attachment; polls (and any unregistered variant)
hit the default unsupported-content handler, which writes the *first*
embed. Returns the updated delivery cache, counter, shared embeds
list, and the send (if one happened). -/
def handle_message_content (media_maxsize : Int) (fetch : FetchOutcome)
    (message_cache_size : Nat) (store : MsgStore) (counter : Nat)
    (content : MessageContent) (params : MessageForwardingParams) :
    Except PyError (MsgStore × Nat × List Embed × Option SendRecord) :=
  match content with
  | .unknown _ => .ok (store, counter, params.embeds, none)
  | .reaction _ target_id text =>
      let embeds1 :=
        match text with
        | none =>
            modifyLast (fun e => { e with title := some "Reaction Removed" })
              params.embeds
        | some t =>
            modifyLast (fun e =>
              { e with title := some "Reaction Added", description := some t })
              params.embeds
      let (store', counter', embeds2, send) :=
        send_forwarded message_cache_size store counter
          { params with embeds := embeds1, reference_id := some target_id }
      .ok (store', counter', embeds2, some send)
  | .text _ t =>
      let embeds1 :=
        modifyLast (fun e =>
          { e with description := some (escape_markdown t) }) params.embeds
      let (store', counter', embeds2, send) :=
        send_forwarded message_cache_size store counter
          { params with embeds := embeds1 }
      .ok (store', counter', embeds2, some send)
  | .media _ caption _ mimetype _ length _ _ =>
      let embeds1 :=
        modifyLast (fun e => { e with description := caption }) params.embeds
      if length > media_maxsize then
        let embeds2 := embeds1 ++
          [ErrorEmbed ("File exceeded size limit (" ++
            toString media_maxsize ++ " bytes).")]
        let (store', counter', embeds3, send) :=
          send_forwarded message_cache_size store counter
            { params with embeds := embeds2 }
        .ok (store', counter', embeds3, some send)
      else
        match fetch with
        | .requestError =>
            let embeds2 := embeds1 ++ [ErrorEmbed "Failed to download media."]
            let (store', counter', embeds3, send) :=
              send_forwarded message_cache_size store counter
                { params with embeds := embeds2 }
            .ok (store', counter', embeds3, some send)
        | .fetched _ => do
            let ext ← mimetypeExt mimetype
            let (store', counter', embeds2, send) :=
              send_forwarded message_cache_size store counter
                { params with embeds := embeds1, file := some ("." ++ ext) }
            .ok (store', counter', embeds2, some send)
  | .poll _ _ _ _ =>
      let embeds1 :=
        modifyHead (fun e =>
          { e with description := some "`< unsupported message content type >`" })
          params.embeds
      let (store', counter', embeds2, send) :=
        send_forwarded message_cache_size store counter
          { params with embeds := embeds1 }
      .ok (store', counter', embeds2, some send)

/-- The `for channel_id, config in chat_bindings.items()` loop of
`_process_whatsapp_message`, with CPython dict-iterator semantics: the
iterator snapshots the entry sequence and remembers the dict's size;
every `next()` call (including the final, exhausting one) raises
`RuntimeError` when the live size differs. Unresolvable or non-text
channels are evicted from the live inner dict (`del`) before the loop
continues. -/
def forwardLoop (resolve : String → Option ResolvedChannel)
    (media_maxsize : Int) (fetch : FetchOutcome) (message_cache_size : Nat)
    (message_id : String) (content : MessageContent) (origSize : Nat)
    (items : List (String × ActiveBindingConfiguration))
    (inner : List (String × ActiveBindingConfiguration))
    (embeds : List Embed) (store : MsgStore) (counter : Nat)
    (sends : List SendRecord) :
    Option PyError × List (String × ActiveBindingConfiguration) ×
      List Embed × MsgStore × Nat × List SendRecord :=
  if inner.length ≠ origSize then
    (some .dictMutatedDuringIteration, inner, embeds, store, counter, sends)
  else
    match items with
    | [] => (none, inner, embeds, store, counter, sends)
    | (channel_id, conf) :: rest =>
        if ¬conf.whatsapp_to_discord then
          forwardLoop resolve media_maxsize fetch message_cache_size
            message_id content origSize rest inner embeds store counter sends
        else
          match resolve channel_id with
          | none =>
              forwardLoop resolve media_maxsize fetch message_cache_size
                message_id content origSize rest (ddel inner channel_id)
                embeds store counter sends
          | some .nonText =>
              forwardLoop resolve media_maxsize fetch message_cache_size
                message_id content origSize rest (ddel inner channel_id)
                embeds store counter sends
          | some .text =>
              match handle_message_content media_maxsize fetch
                  message_cache_size store counter content
                  { channelId := channel_id, embeds := embeds, file := none,
                    message_id := message_id, reference_id := none } with
              | .error e => (some e, inner, embeds, store, counter, sends)
              | .ok (store', counter', embeds', sent) =>
                  forwardLoop resolve media_maxsize fetch message_cache_size
                    message_id content origSize rest inner embeds' store'
                    counter' (sends ++ sent.toList)

/-- Everything observable after one `_process_whatsapp_message` run:
the exception that escaped (if any), the configuration (the inner dict
is mutated in place, so evictions survive even when the loop raises),
the delivery cache, the handle counter, and the successful sends in
order. -/
structure ProcessResult where
  raised : Option PyError
  config : ActiveConfiguration
  store : MsgStore
  counter : Nat
  sends : List SendRecord
  deriving Repr

/-- `_process_whatsapp_message`: drop when paused or when the chat has
no (or an empty) binding entry; build the initial embed (footer,
author with the avatar fetched best-effort, quote block prepended when
the content carries a quote); then run the per-channel loop. -/
def process_whatsapp_message (cfg : ActiveConfiguration)
    (resolve : String → Option ResolvedChannel) (avatar : Option String)
    (media_maxsize : Int) (fetch : FetchOutcome) (message_cache_size : Nat)
    (store : MsgStore) (counter : Nat) (msg : Message) : ProcessResult :=
  if cfg.bindings_paused then
    { raised := none, config := cfg, store := store, counter := counter,
      sends := [] }
  else
    match dget cfg.bindings msg.chat_id with
    | none =>
        { raised := none, config := cfg, store := store, counter := counter,
          sends := [] }
    | some chat_bindings =>
        if chat_bindings.isEmpty then
          { raised := none, config := cfg, store := store, counter := counter,
            sends := [] }
        else
          let base : Embed :=
            { timestamp := some msg.timestamp,
              footerText := some "forwarded from WhatsApp",
              authorName := some msg.push_name, authorIcon := avatar }
          let initial_embeds :=
            match msg.content.quote with
            | some q => [({ description := some (format_quote q) } : Embed), base]
            | none => [base]
          let (err, inner', _, store', counter', sends) :=
            forwardLoop resolve media_maxsize fetch message_cache_size
              msg.id msg.content chat_bindings.length chat_bindings
              chat_bindings initial_embeds store counter []
          { raised := err,
            config := { cfg with
              bindings := dinsert cfg.bindings msg.chat_id inner' },
            store := store', counter := counter', sends := sends }

/- ------------------------------------------------------------------ -/
/- Theorems                                                           -/
/- ------------------------------------------------------------------ -/

/-- C1: the claim says `resume` on a paused store sets `bindings_paused`
to `false`; in the code the handler assigns `True`, so a paused store
stays paused, while `resume` on a non-paused store is the distinct
"not paused" no-op the claim describes. The first conjunct documents
the divergence (the store remains paused after a successful-looking
resume); the second confirms the distinct no-op report. -/
theorem c1_resume_leaves_store_paused (cfg : ActiveConfiguration)
    (file : Option SavedConfiguration) :
    (cfg.bindings_paused = true →
      (binding_resume cfg file).1 = ResumeOutcome.resumed ∧
      (binding_resume cfg file).2.1.bindings_paused = true) ∧
    (cfg.bindings_paused = false →
      (binding_resume cfg file).1 = ResumeOutcome.notPaused ∧
      (binding_resume cfg file).2.1 = cfg) := by
  constructor <;> intro h <;> simp [binding_resume, h]

/-- Witness for C1 at a concrete paused store. -/
theorem c1_resume_leaves_store_paused_witness :
    (binding_resume { bindings_paused := true, bindings := [] } none).1 =
        ResumeOutcome.resumed ∧
    (binding_resume { bindings_paused := true, bindings := [] }
        none).2.1.bindings_paused = true :=
  (c1_resume_leaves_store_paused
    { bindings_paused := true, bindings := [] } none).1 rfl

/-- C4 counterexample: `pause` mutates the in-memory configuration but
never calls `_save_config`, so right after it completes the file still
holds the pre-pause serialization, not the serialization of the
in-memory state. -/
theorem c4_pause_skips_persistence_counterexample :
    (binding_pause { bindings_paused := false, bindings := [] }
        (save_config { bindings_paused := false, bindings := [] })).2.2 ≠
      some (serialize
        (binding_pause { bindings_paused := false, bindings := [] }
          (save_config { bindings_paused := false, bindings := [] })).2.1) := by
  decide

/-- C4 (amended): `set` and `clear` always rewrite the file with the
serialized in-memory state before returning, `remove` does exactly when
it removed a binding (its early-return paths change neither store nor
file), while `pause` and `resume` mutate only the in-memory flag and
never write the file. -/
theorem c4_persistence_amended (cfg : ActiveConfiguration)
    (file : Option SavedConfiguration) (chat_id channel_id ch : String)
    (dir : Direction) (ig pc : Bool)
    (res : String → Option ResolvedChannel) (df : String → Bool) :
    (binding_set cfg file chat_id channel_id dir).2.2 =
        some (serialize (binding_set cfg file chat_id channel_id dir).2.1) ∧
    (binding_clear cfg file ig pc res df).2.2 =
        some (serialize (binding_clear cfg file ig pc res df).2.1) ∧
    ((binding_remove cfg file ch).1 = RemoveOutcome.removed →
      (binding_remove cfg file ch).2.2 =
        some (serialize (binding_remove cfg file ch).2.1)) ∧
    ((binding_remove cfg file ch).1 ≠ RemoveOutcome.removed →
      (binding_remove cfg file ch).2.1 = cfg ∧
      (binding_remove cfg file ch).2.2 = file) ∧
    (binding_pause cfg file).2.2 = file ∧
    (binding_resume cfg file).2.2 = file := by
  refine ⟨?_, ?_, ?_, ?_, ?_, ?_⟩
  · unfold binding_set
    cases hd : dget ((dget cfg.bindings chat_id).getD []) channel_id <;>
      simp [hd, save_config]
  · simp [binding_clear, save_config]
  · intro h
    unfold binding_remove at h ⊢
    by_cases he : cfg.bindings.isEmpty = true
    · rw [if_pos he] at h
      simp at h
    · rw [if_neg he] at h ⊢
      cases hs : removeScan cfg.bindings ch
      · rw [hs] at h
        simp at h
      · simp [save_config]
  · intro h
    unfold binding_remove at h ⊢
    by_cases he : cfg.bindings.isEmpty = true
    · rw [if_pos he]
      exact ⟨rfl, rfl⟩
    · rw [if_neg he] at h ⊢
      cases hs : removeScan cfg.bindings ch
      · exact ⟨rfl, rfl⟩
      · rw [hs] at h
        simp at h
  · unfold binding_pause
    cases h : cfg.bindings_paused <;> simp
  · unfold binding_resume
    cases h : cfg.bindings_paused <;> simp

/-- Witness for C4 (amended) at a concrete store where `remove`
actually removes the only binding for the channel. -/
theorem c4_persistence_amended_witness :
    (binding_remove
        { bindings_paused := false,
          bindings := [("chat", [("1", { discord_to_whatsapp := false,
                                         whatsapp_to_discord := true })])] }
        none "1").2.2 =
      some (serialize
        (binding_remove
          { bindings_paused := false,
            bindings := [("chat", [("1", { discord_to_whatsapp := false,
                                           whatsapp_to_discord := true })])] }
          none "1").2.1) :=
  (c4_persistence_amended
    { bindings_paused := false,
      bindings := [("chat", [("1", { discord_to_whatsapp := false,
                                     whatsapp_to_discord := true })])] }
    none "chat" "1" "1" Direction.bidirectional false false
    (fun _ => none) (fun _ => false)).2.2.1 (by decide)

/-- C5: the claim says `set` upserts the flag pair derived from the
direction even when the binding already exists with different flags;
in the code the existing-binding path only reports "Existing Binding
Updated" and never assigns the flags, so the whole store (and hence
the old flag pair) is left exactly as it was. -/
theorem c5_set_existing_binding_never_updates (cfg : ActiveConfiguration)
    (file : Option SavedConfiguration) (chat_id channel_id : String)
    (dir : Direction) (flags : ActiveBindingConfiguration)
    (h : dget ((dget cfg.bindings chat_id).getD []) channel_id = some flags) :
    (binding_set cfg file chat_id channel_id dir).1 = SetOutcome.updated ∧
    (binding_set cfg file chat_id channel_id dir).2.1 = cfg := by
  unfold binding_set
  simp [h]

/-- Witness for C5: a binding stored as Discord→WhatsApp, "updated"
towards WhatsApp→Discord, keeps its old flags while the command
reports an update. -/
theorem c5_set_existing_binding_never_updates_witness :
    (binding_set
        { bindings_paused := false,
          bindings := [("chat", [("1", { discord_to_whatsapp := true,
                                         whatsapp_to_discord := false })])] }
        none "chat" "1" Direction.whatsappToDiscord).1 = SetOutcome.updated ∧
    (binding_set
        { bindings_paused := false,
          bindings := [("chat", [("1", { discord_to_whatsapp := true,
                                         whatsapp_to_discord := false })])] }
        none "chat" "1" Direction.whatsappToDiscord).2.1 =
      { bindings_paused := false,
        bindings := [("chat", [("1", { discord_to_whatsapp := true,
                                       whatsapp_to_discord := false })])] } :=
  c5_set_existing_binding_never_updates
    { bindings_paused := false,
      bindings := [("chat", [("1", { discord_to_whatsapp := true,
                                     whatsapp_to_discord := false })])] }
    none "chat" "1" Direction.whatsappToDiscord
    { discord_to_whatsapp := true, whatsapp_to_discord := false } (by decide)

/-- C2: the claim says that with two or more bound channels, an
unresolvable one is evicted and the rest are still forwarded to, with
no exception escaping. In the code the eviction is a `del` on the dict
being iterated, so the very next step of the `for` loop raises
`RuntimeError: dictionary changed size during iteration`: with bindings
on channels "1" (deleted on the platform) and "2" (alive), the run
evicts "1", raises, and never sends to "2". -/
theorem c2_eviction_raises_runtime_error :
    (process_whatsapp_message
        { bindings_paused := false,
          bindings := [("chat",
            [("1", { discord_to_whatsapp := false, whatsapp_to_discord := true }),
             ("2", { discord_to_whatsapp := false, whatsapp_to_discord := true })])] }
        (fun c => if c = "2" then some ResolvedChannel.text else none)
        none 1000 FetchOutcome.requestError 10 [] 0
        { id := "m1", chat_id := "chat", sender_id := "s", push_name := "Alice",
          is_from_me := false, timestamp := "2024-01-01T00:00:00",
          is_view_once := false, is_ephemeral := false, is_edit := false,
          content := .text none "hi" }).raised =
      some PyError.dictMutatedDuringIteration ∧
    (process_whatsapp_message
        { bindings_paused := false,
          bindings := [("chat",
            [("1", { discord_to_whatsapp := false, whatsapp_to_discord := true }),
             ("2", { discord_to_whatsapp := false, whatsapp_to_discord := true })])] }
        (fun c => if c = "2" then some ResolvedChannel.text else none)
        none 1000 FetchOutcome.requestError 10 [] 0
        { id := "m1", chat_id := "chat", sender_id := "s", push_name := "Alice",
          is_from_me := false, timestamp := "2024-01-01T00:00:00",
          is_view_once := false, is_ephemeral := false, is_edit := false,
          content := .text none "hi" }).sends = [] ∧
    (process_whatsapp_message
        { bindings_paused := false,
          bindings := [("chat",
            [("1", { discord_to_whatsapp := false, whatsapp_to_discord := true }),
             ("2", { discord_to_whatsapp := false, whatsapp_to_discord := true })])] }
        (fun c => if c = "2" then some ResolvedChannel.text else none)
        none 1000 FetchOutcome.requestError 10 [] 0
        { id := "m1", chat_id := "chat", sender_id := "s", push_name := "Alice",
          is_from_me := false, timestamp := "2024-01-01T00:00:00",
          is_view_once := false, is_ephemeral := false, is_edit := false,
          content := .text none "hi" }).config.bindings =
      [("chat",
        [("2", { discord_to_whatsapp := false, whatsapp_to_discord := true })])] := by
  refine ⟨?_, ?_, ?_⟩ <;> decide

/-- The spec's store invariant: every chat key present in `bindings`
maps to a non-empty inner channel mapping. -/
def BindingsInvariant (cfg : ActiveConfiguration) : Prop :=
  ∀ p ∈ cfg.bindings, p.2 ≠ []

instance (cfg : ActiveConfiguration) : Decidable (BindingsInvariant cfg) :=
  inferInstanceAs (Decidable (∀ p ∈ cfg.bindings, p.2 ≠ []))

/-- C3 counterexample: the forwarding pipeline's eviction path deletes
the channel entry but never prunes the chat key, so a chat whose only
bound channel has disappeared is left mapping to an empty inner dict —
an invariant-violating state reachable from an invariant-satisfying
one by a single inbound message. -/
theorem c3_eviction_leaves_empty_inner_counterexample :
    BindingsInvariant
      { bindings_paused := false,
        bindings := [("chat",
          [("1", { discord_to_whatsapp := false,
                   whatsapp_to_discord := true })])] } ∧
    ¬BindingsInvariant
      (process_whatsapp_message
        { bindings_paused := false,
          bindings := [("chat",
            [("1", { discord_to_whatsapp := false,
                     whatsapp_to_discord := true })])] }
        (fun _ => none) none 1000 FetchOutcome.requestError 10 [] 0
        { id := "m1", chat_id := "chat", sender_id := "s", push_name := "Alice",
          is_from_me := false, timestamp := "2024-01-01T00:00:00",
          is_view_once := false, is_ephemeral := false, is_edit := false,
          content := .text none "hi" }).config := by
  constructor <;> decide

theorem mem_dinsert {α : Type} {l : List (String × α)} {k : String} {v : α}
    {p : String × α} (h : p ∈ dinsert l k v) : p ∈ l ∨ p = (k, v) := by
  induction l with
  | nil => simpa [dinsert] using h
  | cons hd tl ih =>
      obtain ⟨k', v'⟩ := hd
      rw [dinsert] at h
      split at h
      next hk =>
        rcases List.mem_cons.mp h with h1 | h1
        · right
          rw [h1, hk]
        · left
          exact List.mem_cons_of_mem _ h1
      next hk =>
        rcases List.mem_cons.mp h with h1 | h1
        · left
          rw [h1]
          exact List.mem_cons_self _ _
        · rcases ih h1 with h2 | h2
          · left
            exact List.mem_cons_of_mem _ h2
          · right
            exact h2

theorem dinsert_ne_nil {α : Type} (l : List (String × α)) (k : String) (v : α) :
    dinsert l k v ≠ [] := by
  cases l with
  | nil => simp [dinsert]
  | cons hd tl =>
      obtain ⟨k', v'⟩ := hd
      rw [dinsert]
      split <;> simp

theorem removeScan_preserves
    {bindings bindings' : List (String × List (String × ActiveBindingConfiguration))}
    {ch : String} (h : ∀ p ∈ bindings, p.2 ≠ [])
    (hs : removeScan bindings ch = some bindings') :
    ∀ p ∈ bindings', p.2 ≠ [] := by
  induction bindings generalizing bindings' with
  | nil => simp [removeScan] at hs
  | cons hd tl ih =>
      obtain ⟨chat, inner⟩ := hd
      rw [removeScan] at hs
      split at hs
      · have hrest : ∀ p ∈ tl, p.2 ≠ [] := fun p hp =>
          h p (List.mem_cons_of_mem _ hp)
        rcases Option.some.inj hs with rfl
        split
        · exact hrest
        next hne =>
          intro p hp
          rcases List.mem_cons.mp hp with h1 | h1
          · rw [h1]
            simpa [List.isEmpty_iff] using hne
          · exact hrest p h1
      · cases hscan : removeScan tl ch with
        | none => rw [hscan] at hs; simp at hs
        | some r =>
            rw [hscan] at hs
            have hs2 : ((chat, inner) :: r) = bindings' := by
              simpa using hs
            subst hs2
            intro p hp
            rcases List.mem_cons.mp hp with h1 | h1
            · rw [h1]
              exact h _ (List.mem_cons_self _ _)
            · exact ih (fun p hp => h p (List.mem_cons_of_mem _ hp)) hscan p h1

/-- C3 (amended): every admin operation — set, remove, clear, pause,
resume — preserves the invariant that each present chat key has a
non-empty inner channel mapping (clear even restores it), but the
forwarding pipeline's eviction does not prune an emptied chat entry,
so the invariant as claimed over all six operations fails (see the
counterexample). -/
theorem c3_admin_operations_preserve_invariant (cfg : ActiveConfiguration)
    (file : Option SavedConfiguration) (chat_id channel_id ch : String)
    (dir : Direction) (ig pc : Bool)
    (res : String → Option ResolvedChannel) (df : String → Bool)
    (h : BindingsInvariant cfg) :
    BindingsInvariant (binding_set cfg file chat_id channel_id dir).2.1 ∧
    BindingsInvariant (binding_remove cfg file ch).2.1 ∧
    BindingsInvariant (binding_clear cfg file ig pc res df).2.1 ∧
    BindingsInvariant (binding_pause cfg file).2.1 ∧
    BindingsInvariant (binding_resume cfg file).2.1 := by
  refine ⟨?_, ?_, ?_, ?_, ?_⟩
  · unfold binding_set
    cases hd : dget ((dget cfg.bindings chat_id).getD []) channel_id
    · simp only [hd]
      intro p hp
      rcases mem_dinsert hp with h1 | h1
      · exact h p h1
      · rw [h1]
        exact dinsert_ne_nil _ _ _
    · simp only [hd]
      exact h
  · unfold binding_remove
    by_cases he : cfg.bindings.isEmpty = true
    · rw [if_pos he]
      exact h
    · rw [if_neg he]
      cases hs : removeScan cfg.bindings ch
      · exact h
      · exact removeScan_preserves h hs
  · unfold binding_clear
    simp only
    intro p hp
    have := List.of_mem_filter hp
    simpa [List.isEmpty_iff] using this
  · unfold binding_pause
    split
    · exact h
    · exact h
  · unfold binding_resume
    split
    · exact h
    · exact h

/-- Witness for C3 (amended) at a concrete invariant-satisfying
store. -/
theorem c3_admin_operations_preserve_invariant_witness :
    BindingsInvariant
      (binding_set
        { bindings_paused := false,
          bindings := [("chat", [("1", { discord_to_whatsapp := false,
                                         whatsapp_to_discord := true })])] }
        none "chat" "2" Direction.bidirectional).2.1 ∧
    BindingsInvariant
      (binding_remove
        { bindings_paused := false,
          bindings := [("chat", [("1", { discord_to_whatsapp := false,
                                         whatsapp_to_discord := true })])] }
        none "1").2.1 ∧
    BindingsInvariant
      (binding_clear
        { bindings_paused := false,
          bindings := [("chat", [("1", { discord_to_whatsapp := false,
                                         whatsapp_to_discord := true })])] }
        none true false (fun _ => none) (fun _ => false)).2.1 ∧
    BindingsInvariant
      (binding_pause
        { bindings_paused := false,
          bindings := [("chat", [("1", { discord_to_whatsapp := false,
                                         whatsapp_to_discord := true })])] }
        none).2.1 ∧
    BindingsInvariant
      (binding_resume
        { bindings_paused := false,
          bindings := [("chat", [("1", { discord_to_whatsapp := false,
                                         whatsapp_to_discord := true })])] }
        none).2.1 :=
  c3_admin_operations_preserve_invariant
    { bindings_paused := false,
      bindings := [("chat", [("1", { discord_to_whatsapp := false,
                                     whatsapp_to_discord := true })])] }
    none "chat" "2" "1" Direction.bidirectional true false
    (fun _ => none) (fun _ => false) (by decide)

/-- Driver for the delivery-cache property: one
`_send_forwarded_message_to_channel` call per destination channel id,
all under the same source `message_id`, with no reply reference,
threading the cache and the handle counter. -/
def deliverSequence (message_cache_size : Nat) (message_id : String) :
    List String → MsgStore → Nat → MsgStore × Nat
  | [], store, counter => (store, counter)
  | ch :: rest, store, counter =>
      let r := send_forwarded message_cache_size store counter
        { channelId := ch, embeds := [], file := none,
          message_id := message_id, reference_id := none }
      deliverSequence message_cache_size message_id rest r.1 r.2.1

theorem dinsert_of_dget_none {α : Type} {l : List (String × α)} {k : String}
    (v : α) (h : dget l k = none) : dinsert l k v = l ++ [(k, v)] := by
  induction l with
  | nil => simp [dinsert]
  | cons hd tl ih =>
      obtain ⟨k', v'⟩ := hd
      rw [dget] at h
      rw [dinsert]
      split
      next hk => simp [hk] at h
      next hk =>
        rw [if_neg hk] at h
        simp [ih h]

theorem dget_append_none {α : Type} {l : List (String × α)} {k k' : String}
    {v : α} (h : dget l k' = none) (hne : k' ≠ k) :
    dget (l ++ [(k, v)]) k' = none := by
  induction l with
  | nil =>
      rw [List.nil_append, dget, if_neg (fun hh => hne hh.symm)]
      rfl
  | cons hd tl ih =>
      obtain ⟨k1, v1⟩ := hd
      rw [dget] at h
      rw [List.cons_append, dget]
      split
      next hk => simp [hk] at h
      next hk => exact ih (by simpa [hk] using h)

theorem dget_zip_none {k : String} {xs : List String} {ys : List Nat}
    (h : k ∉ xs) : dget (xs.zip ys) k = none := by
  induction xs generalizing ys with
  | nil => simp [dget]
  | cons x xt ih =>
      cases ys with
      | nil => simp [dget]
      | cons y yt =>
          rw [List.zip_cons_cons, dget]
          split
          next hk =>
            subst hk
            simp at h
          next hk =>
            exact ih (fun hm => h (List.mem_cons_of_mem _ hm))

theorem deliverSequence_no_evict (N : Nat) (m : String) :
    ∀ (ids : List String) (inner : List (String × Nat)) (c : Nat),
    (∀ ch ∈ ids, dget inner ch = none) → ids.Nodup →
    inner.length + ids.length ≤ N →
    deliverSequence N m ids [(m, inner)] c =
      ([(m, inner ++ ids.zip ((List.range ids.length).map (fun i => c + i)))],
       c + ids.length) := by
  intro ids
  induction ids with
  | nil => intro inner c _ _ _; simp [deliverSequence]
  | cons ch rest ih =>
      intro inner c hfresh hnd hlen
      have hch : dget inner ch = none := hfresh ch (List.mem_cons_self _ _)
      have hstep : dinsert inner ch c = inner ++ [(ch, c)] :=
        dinsert_of_dget_none c hch
      have hlen1 : ¬(inner ++ [(ch, c)]).length > N := by
        simp at hlen ⊢
        omega
      rw [deliverSequence]
      simp only [send_forwarded, dget, if_pos rfl, Option.getD_some, hstep,
        hlen1, if_false, dinsert, if_pos rfl, ite_false, ite_true]
      have hrec := ih (inner ++ [(ch, c)]) (c + 1)
        (by
          intro ch' hch'
          exact dget_append_none (hfresh ch' (List.mem_cons_of_mem _ hch'))
            (by
              intro hcc
              exact (List.nodup_cons.mp hnd).1 (hcc ▸ hch')))
        (List.nodup_cons.mp hnd).2
        (by simp at hlen ⊢; omega)
      rw [hrec]
      have hfun : ((fun i => c + i) ∘ fun i => i + 1) = fun i => c + 1 + i := by
        funext i
        simp [Function.comp]
        omega
      rw [Prod.mk.injEq]
      constructor
      · rw [show (ch :: rest).length = rest.length + 1 from rfl,
          List.range_succ_eq_map, List.map_cons, List.map_map, hfun,
          List.zip_cons_cons, List.append_assoc, List.singleton_append]
        simp
      · simp
        omega

theorem deliverSequence_append (N : Nat) (m : String) (a b : List String) :
    ∀ (store : MsgStore) (c : Nat),
    deliverSequence N m (a ++ b) store c =
      deliverSequence N m b (deliverSequence N m a store c).1
        (deliverSequence N m a store c).2 := by
  induction a with
  | nil => intro store c; simp [deliverSequence]
  | cons x xt ih => intro store c; rw [List.cons_append, deliverSequence,
      deliverSequence]; exact ih _ _

theorem deliverSequence_start (N : Nat) (m ch : String) (rest : List String)
    (c : Nat) :
    deliverSequence N m (ch :: rest) [] c =
      deliverSequence N m (ch :: rest) [(m, [])] c := by
  rw [deliverSequence, deliverSequence]
  simp [send_forwarded, dget, dinsert]

/-- C9: starting from an empty delivery cache, inserting delivered
handles for `N + 1` distinct destination channels under one source
message id (cache cap `N`) leaves that id's cache holding exactly the
last `N` inserted destinations with their handles, in insertion order:
the single first-inserted destination is evicted (`drop 1`) and every
other is retained. -/
theorem c9_delivery_cache_evicts_first_inserted (N : Nat) (m : String)
    (ids : List String) (c0 : Nat) (hnd : ids.Nodup)
    (hlen : ids.length = N + 1) :
    (deliverSequence N m ids [] c0).1 =
      [(m, (ids.zip ((List.range ids.length).map (fun i => c0 + i))).drop 1)] := by
  have hne : ids ≠ [] := by
    intro h
    rw [h] at hlen
    simp at hlen
  obtain ⟨ch0, rest0, hids0⟩ := List.exists_cons_of_ne_nil hne
  rw [hids0, deliverSequence_start, ← hids0]
  have hsplit : ids = ids.dropLast ++ [ids.getLast hne] :=
    (List.dropLast_append_getLast hne).symm
  have hfrontlen : ids.dropLast.length = N := by
    have := List.length_dropLast ids
    omega
  have hfrontnd : ids.dropLast.Nodup := by
    rw [hsplit] at hnd
    exact (List.nodup_append.mp hnd).1
  have hlast_notmem : ids.getLast hne ∉ ids.dropLast := by
    rw [hsplit] at hnd
    have hd := (List.nodup_append.mp hnd).2.2
    intro hmem
    exact hd hmem (List.mem_singleton_self _)
  rw [hsplit, deliverSequence_append]
  rw [deliverSequence_no_evict N m ids.dropLast [] c0
    (by intro ch _; simp [dget]) hfrontnd (by simp [hfrontlen])]
  simp only [List.nil_append]
  set F := ids.dropLast.zip
    ((List.range ids.dropLast.length).map (fun i => c0 + i)) with hF
  have hfull_get : dget F (ids.getLast hne) = none :=
    dget_zip_none hlast_notmem
  have hfull_len : F.length = N := by
    simp [hF, hfrontlen]
  rw [deliverSequence, deliverSequence]
  simp only [send_forwarded]
  have h1 : dget [(m, F)] m = some F := by simp [dget]
  have h2 : dinsert F (ids.getLast hne) (c0 + ids.dropLast.length) =
      F ++ [(ids.getLast hne, c0 + ids.dropLast.length)] :=
    dinsert_of_dget_none _ hfull_get
  have hlen2 : (F ++ [(ids.getLast hne, c0 + ids.dropLast.length)]).length > N := by
    rw [List.length_append, hfull_len]
    simp
  simp only [h1, Option.getD_some, h2, hlen2, if_true, ite_true, gt_iff_lt]
  have h3 : ∀ x : List (String × Nat), dinsert [(m, F)] m x = [(m, x)] := by
    intro x
    simp [dinsert]
  rw [h3]
  have hzip : (ids.dropLast ++ [ids.getLast hne]).zip
      (List.map (fun i => c0 + i)
        (List.range (ids.dropLast ++ [ids.getLast hne]).length)) =
      F ++ [(ids.getLast hne, c0 + ids.dropLast.length)] := by
    have hlen3 : (ids.dropLast ++ [ids.getLast hne]).length =
        ids.dropLast.length + 1 := by simp
    rw [hlen3, List.range_succ, List.map_append, List.zip_append (by simp)]
    simp [hF]
  rw [hzip]

/-- Witness for C9 with cap 2 and three distinct destinations. -/
theorem c9_delivery_cache_evicts_first_inserted_witness :
    (deliverSequence 2 "m" ["1", "2", "3"] [] 0).1 =
      [("m", ((["1", "2", "3"].zip
        ((List.range (["1", "2", "3"] : List String).length).map
          (fun i => 0 + i))).drop 1))] :=
  c9_delivery_cache_evicts_first_inserted 2 "m" ["1", "2", "3"] 0
    (by decide) (by decide)

theorem firstTag_eq_filter_head (fields : List (String × JValue)) :
    firstTag fields =
      (fields.filter (fun p => registryKeys.contains p.1)).head? := by
  induction fields with
  | nil => rfl
  | cons hd tl ih =>
      obtain ⟨k, v⟩ := hd
      by_cases hk : k ∈ registryKeys <;>
        simp [firstTag, List.filter_cons, hk, ih]

/-- C8: over object payloads, when exactly one registered tag key is
present (the filter over the registry keeps a single entry), `from_raw`
builds the variant registered for that tag from that tag's sub-object
(`decodeTagged`, which runs that variant's constructor, quote
resolution included); when no registered tag is present it returns the
`Unknown` variant with no quote. -/
theorem c8_decode_dispatches_on_registered_tag
    (fields : List (String × JValue)) (key : String) (d : JValue) :
    (fields.filter (fun p => registryKeys.contains p.1) = [(key, d)] →
      from_raw (.obj fields) = decodeTagged key d) ∧
    (fields.filter (fun p => registryKeys.contains p.1) = [] →
      from_raw (.obj fields) = .ok (.unknown none)) := by
  constructor <;> intro h <;>
    rw [from_raw_obj_eq, firstTag_eq_filter_head, h] <;> rfl

/-- Witness for C8: a single-tag payload dispatches to its variant, a
payload with no registered tag decodes to Unknown. -/
theorem c8_decode_dispatches_on_registered_tag_witness :
    from_raw (.obj [("conversation", .str "hi")]) =
        decodeTagged "conversation" (.str "hi") ∧
    from_raw (.obj [("somethingElse", .null)]) = .ok (.unknown none) :=
  ⟨(c8_decode_dispatches_on_registered_tag
      [("conversation", .str "hi")] "conversation" (.str "hi")).1 rfl,
   (c8_decode_dispatches_on_registered_tag
      [("somethingElse", .null)] "conversation" .null).2 rfl⟩

theorem exceptBind_ok {α β : Type} {x : Except PyError α}
    {f : α → Except PyError β} {b : β} (h : (x >>= f) = .ok b) :
    ∃ a, x = .ok a ∧ f a = .ok b := by
  cases x with
  | error e => simp [Bind.bind, Except.bind] at h
  | ok a => exact ⟨a, rfl, by simpa [Bind.bind, Except.bind] using h⟩

/-- Whatever variant `construct` succeeds with carries exactly the
quote it was given by the base `__init__`. -/
theorem construct_quote {key : String} {d : JValue}
    {q0 : Option MessageContent} {c : MessageContent}
    (h : construct key d q0 = .ok c) : c.quote = q0 := by
  unfold construct at h
  repeat' split at h
  all_goals
    repeat obtain ⟨_, _, h⟩ := exceptBind_ok h
  all_goals
    first
      | (injection h with h2
         subst h2
         rfl)
      | injection h

/-- C7 (amended): the decoded quote is the result of running the same
decoder on `contextInfo.quotedMessage` of the *selected tag's
sub-object* (not of the payload itself): whenever the key scan selects
`(key, d)` and `d` carries a quoted message `q`, a successful decode of
the payload yields a content whose `quote` is exactly the successful
decode of `q`. -/
theorem c7_quote_decoded_from_tag_subobject
    (fields : List (String × JValue)) (key : String) (d q : JValue)
    (c : MessageContent) (htag : firstTag fields = some (key, d))
    (hq : pyGetQuoted d = .ok (some q))
    (hc : from_raw (.obj fields) = .ok c) :
    ∃ qc, from_raw q = .ok qc ∧ c.quote = some qc := by
  rw [from_raw_obj_eq, htag] at hc
  have hc2 : decodeTagged key d = Except.ok c := hc
  unfold decodeTagged at hc2
  rw [hq] at hc2
  have hc3 : (from_raw q).bind
      (fun qc => construct key d (some qc)) = Except.ok c := hc2
  cases hr : from_raw q with
  | error e =>
      rw [hr] at hc3
      have hc4 : (Except.error e : Except PyError MessageContent) =
          Except.ok c := hc3
      cases hc4
  | ok qc =>
      rw [hr] at hc3
      have hc4 : construct key d (some qc) = Except.ok c := hc3
      exact ⟨qc, rfl, construct_quote hc4⟩

/-- Witness for C7 (amended): an extended-text payload quoting a plain
conversation. -/
theorem c7_quote_decoded_from_tag_subobject_witness :
    ∃ qc, from_raw (.obj [("conversation", .str "q")]) = .ok qc ∧
      (MessageContent.text (some (.text none "q")) "hi").quote = some qc :=
  c7_quote_decoded_from_tag_subobject
    [("extendedTextMessage", .obj
      [("text", .str "hi"),
       ("contextInfo", .obj [("quotedMessage",
         .obj [("conversation", .str "q")])])])]
    "extendedTextMessage"
    (.obj [("text", .str "hi"),
           ("contextInfo", .obj [("quotedMessage",
             .obj [("conversation", .str "q")])])])
    (.obj [("conversation", .str "q")])
    (.text (some (.text none "q")) "hi")
    rfl rfl
    (by
      rw [from_raw_obj_eq]
      have hinner : from_raw (.obj [("conversation", .str "q")]) =
          .ok (.text none "q") := by
        rw [from_raw_obj_eq]
        rfl
      have houter : decodeTagged "extendedTextMessage"
          (.obj [("text", .str "hi"),
            ("contextInfo", .obj [("quotedMessage",
              .obj [("conversation", .str "q")])])]) =
          construct "extendedTextMessage"
            (.obj [("text", .str "hi"),
              ("contextInfo", .obj [("quotedMessage",
                .obj [("conversation", .str "q")])])])
            (some (.text none "q")) :=
        decodeTagged_quoted rfl hinner
      exact houter.trans (by rfl))

/-- C7 counterexample: the claim reads the quoted message off the
*payload's* `contextInfo.quotedMessage`. For a payload whose top level
carries such a field while the selected tag's sub-object does not, the
decoder returns no quote at all even though decoding the payload-level
`contextInfo.quotedMessage` succeeds — the quote is sourced from the
tag's sub-object, not the payload. -/
theorem c7_payload_level_context_info_ignored_counterexample :
    pyGetQuoted (.obj
        [("extendedTextMessage", .obj [("text", .str "hi")]),
         ("contextInfo", .obj [("quotedMessage",
           .obj [("conversation", .str "q")])])]) =
      .ok (some (.obj [("conversation", .str "q")])) ∧
    from_raw (.obj [("conversation", .str "q")]) = .ok (.text none "q") ∧
    (from_raw (.obj
        [("extendedTextMessage", .obj [("text", .str "hi")]),
         ("contextInfo", .obj [("quotedMessage",
           .obj [("conversation", .str "q")])])])).map MessageContent.quote =
      .ok none := by
  refine ⟨rfl, ?_, ?_⟩
  · rw [from_raw_obj_eq]
    rfl
  · rw [show from_raw (.obj
        [("extendedTextMessage", .obj [("text", .str "hi")]),
         ("contextInfo", .obj [("quotedMessage",
           .obj [("conversation", .str "q")])])]) =
      decodeTagged "extendedTextMessage" (.obj [("text", .str "hi")]) from by
        rw [from_raw_obj_eq]
        rfl]
    rfl

/-- C6 counterexample: a webhook body whose envelope matches but whose
extracted payload segment is not valid JSON. `json.loads` raises, the
exception escapes `_handle_webhook` (no `try` surrounds it), and the
sender receives a server error instead of the empty success response
the claim promises for every body. -/
theorem c6_invalid_json_raises_counterexample :
    handle_webhook "jsonData=notjson&token=x" =
      .error PyError.jsonDecodeError := by
  rfl

/-- C6 (amended): only an envelope-pattern mismatch is absorbed — for
every raw body whose double-decoded form fails the
`jsonData=...&token=...` pattern the handler logs and returns the empty
success response; when the pattern matches, a payload segment that is
not valid JSON (or malformed required Message fields) raises out of the
handler, surfacing an error to the sender. -/
theorem c6_envelope_mismatch_absorbed (body : String)
    (h : matchEnvelope (unquote (unquote_plus body)) = none) :
    handle_webhook body = .ok .ignored := by
  unfold handle_webhook
  rw [h]

/-- Witness for C6 (amended) on a body that is not form-encoded at
all. -/
theorem c6_envelope_mismatch_absorbed_witness :
    handle_webhook "hello" = .ok .ignored :=
  c6_envelope_mismatch_absorbed "hello" rfl

/-- The size-limit placeholder appended by the media handler. -/
def sizeLimitEmbed (M : Int) : Embed :=
  ErrorEmbed ("File exceeded size limit (" ++ toString M ++ " bytes).")

/-- The shared embeds list of an oversize-media forward as it stands
after `j` per-channel sends: the author embed (caption written into it
by the first dispatch), then `j - 1` copies of the size-limit
placeholder each later overwritten with the caption by the following
channel's dispatch (`embeds[-1].description = content.caption` hits the
placeholder appended by the previous channel), then the placeholder
appended last. -/
def oversizeEmbedsAt (base basep errp err : Embed) : Nat → List Embed
  | 0 => [base]
  | j + 1 => basep :: (List.replicate j errp ++ [err])

theorem modifyLast_cons (f : Embed → Embed) (a : Embed) {l : List Embed}
    (h : l ≠ []) : modifyLast f (a :: l) = a :: modifyLast f l := by
  cases l with
  | nil => exact absurd rfl h
  | cons b bt => rfl

theorem modifyLast_append_singleton (f : Embed → Embed) (xs : List Embed)
    (x : Embed) : modifyLast f (xs ++ [x]) = xs ++ [f x] := by
  induction xs with
  | nil => rfl
  | cons a tl ih =>
      rw [List.cons_append, modifyLast_cons f a (by simp), ih,
        List.cons_append]

theorem oversizeEmbedsAt_step (caption : Option String) (B S : Embed)
    (j : Nat) :
    modifyLast (fun e => { e with description := caption })
        (oversizeEmbedsAt B { B with description := caption }
          { S with description := caption } S j) ++ [S] =
      oversizeEmbedsAt B { B with description := caption }
        { S with description := caption } S (j + 1) := by
  cases j with
  | zero => rfl
  | succ k =>
      rw [oversizeEmbedsAt, modifyLast_cons _ _ (by simp),
        modifyLast_append_singleton, oversizeEmbedsAt]
      simp [List.replicate_succ']

/-- The delivery-cache update performed by one send (lookup or create
the per-message dict, insert the handle, evict when over cap). -/
def cacheStep (N : Nat) (store : MsgStore) (mid ch : String) (c : Nat) :
    MsgStore :=
  let i1 := dinsert ((dget store mid).getD []) ch c
  dinsert store mid (if i1.length > N then i1.drop 1 else i1)

theorem c10_media_step (M : Int) (fetch : FetchOutcome) (N : Nat)
    (store : MsgStore) (c : Nat) (caption : Option String)
    (url mt mk sha esha : String) (L : Int) (hL : L > M)
    (ch mid : String) (embeds : List Embed) :
    handle_message_content M fetch N store c
        (.media none caption url mt mk L sha esha)
        { channelId := ch, embeds := embeds, file := none,
          message_id := mid, reference_id := none } =
      .ok (cacheStep N store mid ch c, c + 1,
           modifyLast (fun e => { e with description := caption }) embeds ++
             [sizeLimitEmbed M],
           some { channelId := ch,
                  embeds := modifyLast
                    (fun e => { e with description := caption }) embeds ++
                    [sizeLimitEmbed M],
                  file := none, reference := none, handle := c }) := by
  simp only [handle_message_content]
  rw [if_pos hL]
  rfl

theorem c10_loop (resolve : String → Option ResolvedChannel) (M : Int)
    (fetch : FetchOutcome) (N : Nat) (mid : String)
    (caption : Option String) (url mt mk sha esha : String) (L : Int)
    (hL : L > M) (origSize : Nat) (E : Nat → List Embed)
    (hstep : ∀ j, modifyLast (fun e => { e with description := caption })
      (E j) ++ [sizeLimitEmbed M] = E (j + 1)) :
    ∀ (rest : List (String × ActiveBindingConfiguration))
      (inner : List (String × ActiveBindingConfiguration))
      (store : MsgStore) (c : Nat) (sends0 : List SendRecord) (j : Nat),
    (∀ p ∈ rest, p.2.whatsapp_to_discord = true) →
    (∀ p ∈ rest, resolve p.1 = some ResolvedChannel.text) →
    inner.length = origSize →
    ∃ st, forwardLoop resolve M fetch N mid
        (.media none caption url mt mk L sha esha) origSize rest inner
        (E j) store c sends0 =
      (none, inner, E (j + rest.length), st, c + rest.length,
       sends0 ++ (rest.zip (List.range rest.length)).map (fun pk =>
         (⟨pk.1.1, E (j + pk.2 + 1), none, none, c + pk.2⟩ : SendRecord))) := by
  intro rest
  induction rest with
  | nil =>
      intro inner store c sends0 j _ _ hsize
      refine ⟨store, ?_⟩
      rw [forwardLoop, if_neg (by omega)]
      simp
  | cons p rest' ih =>
      intro inner store c sends0 j hw hres hsize
      obtain ⟨ch, conf⟩ := p
      have hw1 : conf.whatsapp_to_discord = true :=
        hw (ch, conf) (List.mem_cons_self _ _)
      have hres1 : resolve ch = some ResolvedChannel.text :=
        hres (ch, conf) (List.mem_cons_self _ _)
      obtain ⟨st, hst⟩ := ih inner (cacheStep N store mid ch c) (c + 1)
        (sends0 ++ [(⟨ch, E (j + 1), none, none, c⟩ : SendRecord)]) (j + 1)
        (fun p hp => hw p (List.mem_cons_of_mem _ hp))
        (fun p hp => hres p (List.mem_cons_of_mem _ hp)) hsize
      refine ⟨st, ?_⟩
      rw [forwardLoop, if_neg (by omega)]
      simp only [hw1, not_true, if_false, ite_false, Bool.true_eq_false,
        hres1, c10_media_step M fetch N store c caption url mt mk sha esha
          L hL ch mid, hstep j, Option.toList_some]
      rw [hst]
      simp only [List.length_cons]
      have h3 : j + 1 + rest'.length = j + (rest'.length + 1) := by omega
      have h5 : c + 1 + rest'.length = c + (rest'.length + 1) := by omega
      have hsend :
          sends0 ++ [(⟨ch, E (j + 1), none, none, c⟩ : SendRecord)] ++
            List.map (fun pk => (⟨pk.1.1, E (j + 1 + pk.2 + 1), none, none,
              c + 1 + pk.2⟩ : SendRecord))
              (rest'.zip (List.range rest'.length)) =
          sends0 ++ List.map (fun pk => (⟨pk.1.1, E (j + pk.2 + 1), none,
              none, c + pk.2⟩ : SendRecord))
            (((ch, conf) :: rest').zip (List.range (rest'.length + 1))) := by
        rw [List.range_succ_eq_map, List.zip_cons_cons, List.map_cons,
          List.zip_map_right, List.map_map]
        rw [List.append_assoc, List.singleton_append]
        congr 2
        simp
        refine fun a b k hmem => ⟨?_, by omega⟩
        congr 1
        omega
      rw [h3, h5, hsend]

/-- C10: one shared embeds list serves every bound channel of a
forward. For an oversize media message forwarded to the chat's bound
channels (all resolvable, all WhatsApp→Discord), the `k`-th channel's
send carries the author embed, then `k` copies of the size-limit
placeholder appended during the earlier channels' sends — each with its
description overwritten by the caption when the *next* channel's
dispatch ran `embeds[-1].description = content.caption` against the
shared list — and finally the placeholder appended for this channel:
embeds appended by earlier sends appear in all later sends, and later
mutations of those embeds are visible too. -/
theorem c10_shared_embeds_accumulate_across_channels
    (bnd : List (String × ActiveBindingConfiguration)) (chat : String)
    (resolve : String → Option ResolvedChannel) (avatar : Option String)
    (M L : Int) (caption : Option String) (url mt mk sha esha : String)
    (mid sid pn ts : String) (fetch : FetchOutcome) (N : Nat)
    (store0 : MsgStore) (c0 : Nat)
    (hw : ∀ p ∈ bnd, p.2.whatsapp_to_discord = true)
    (hres : ∀ p ∈ bnd, resolve p.1 = some ResolvedChannel.text)
    (hL : L > M) :
    (process_whatsapp_message
        { bindings_paused := false, bindings := [(chat, bnd)] }
        resolve avatar M fetch N store0 c0
        { id := mid, chat_id := chat, sender_id := sid, push_name := pn,
          is_from_me := false, timestamp := ts, is_view_once := false,
          is_ephemeral := false, is_edit := false,
          content := .media none caption url mt mk L sha esha }).sends =
      (bnd.zip (List.range bnd.length)).map (fun pk =>
        (⟨pk.1.1,
          oversizeEmbedsAt
            { timestamp := some ts,
              footerText := some "forwarded from WhatsApp",
              authorName := some pn, authorIcon := avatar }
            { timestamp := some ts,
              footerText := some "forwarded from WhatsApp",
              authorName := some pn, authorIcon := avatar,
              description := caption }
            { sizeLimitEmbed M with description := caption }
            (sizeLimitEmbed M) (pk.2 + 1),
          none, none, c0 + pk.2⟩ : SendRecord)) := by
  cases bnd with
  | nil => simp [process_whatsapp_message, dget]
  | cons b bt =>
      obtain ⟨st, hst⟩ := c10_loop resolve M fetch N mid caption url mt mk
        sha esha L hL (b :: bt).length
        (oversizeEmbedsAt
          { timestamp := some ts, footerText := some "forwarded from WhatsApp",
            authorName := some pn, authorIcon := avatar }
          { timestamp := some ts, footerText := some "forwarded from WhatsApp",
            authorName := some pn, authorIcon := avatar,
            description := caption }
          { sizeLimitEmbed M with description := caption }
          (sizeLimitEmbed M))
        (oversizeEmbedsAt_step caption
          { timestamp := some ts, footerText := some "forwarded from WhatsApp",
            authorName := some pn, authorIcon := avatar }
          (sizeLimitEmbed M))
        (b :: bt) (b :: bt) store0 c0 [] 0 hw hres rfl
      have hdg : dget [(chat, b :: bt)] chat = some (b :: bt) := by
        simp [dget]
      rw [show (oversizeEmbedsAt
          { timestamp := some ts, footerText := some "forwarded from WhatsApp",
            authorName := some pn, authorIcon := avatar }
          { timestamp := some ts, footerText := some "forwarded from WhatsApp",
            authorName := some pn, authorIcon := avatar,
            description := caption }
          { sizeLimitEmbed M with description := caption }
          (sizeLimitEmbed M) 0) =
        [{ timestamp := some ts, footerText := some "forwarded from WhatsApp",
           authorName := some pn, authorIcon := avatar }] from rfl] at hst
      unfold process_whatsapp_message
      simp only [hdg, MessageContent.quote, List.isEmpty_cons,
        Bool.false_eq_true, if_false, ite_false]
      rw [hst]
      simp

/-- Witness for C10 with three bound channels and an oversize image. -/
theorem c10_shared_embeds_accumulate_across_channels_witness :
    let bnd : List (String × ActiveBindingConfiguration) :=
      [("1", ⟨false, true⟩), ("2", ⟨false, true⟩), ("3", ⟨false, true⟩)]
    (process_whatsapp_message
        { bindings_paused := false, bindings := [("chat", bnd)] }
        (fun _ => some ResolvedChannel.text) none 10000000
        FetchOutcome.requestError 10 [] 0
        { id := "m", chat_id := "chat", sender_id := "s", push_name := "Alice",
          is_from_me := false, timestamp := "t", is_view_once := false,
          is_ephemeral := false, is_edit := false,
          content := .media none (some "cap") "u" "image/png" "k" 20000000
            "sh" "esh" }).sends =
      (bnd.zip (List.range bnd.length)).map (fun pk =>
        (⟨pk.1.1,
          oversizeEmbedsAt
            { timestamp := some "t",
              footerText := some "forwarded from WhatsApp",
              authorName := some "Alice", authorIcon := none }
            { timestamp := some "t",
              footerText := some "forwarded from WhatsApp",
              authorName := some "Alice", authorIcon := none,
              description := some "cap" }
            { sizeLimitEmbed 10000000 with description := some "cap" }
            (sizeLimitEmbed 10000000) (pk.2 + 1),
          none, none, 0 + pk.2⟩ : SendRecord)) :=
  c10_shared_embeds_accumulate_across_channels
    [("1", ⟨false, true⟩), ("2", ⟨false, true⟩), ("3", ⟨false, true⟩)]
    "chat" (fun _ => some ResolvedChannel.text) none 10000000 20000000
    (some "cap") "u" "image/png" "k" "sh" "esh" "m" "s" "Alice" "t"
    FetchOutcome.requestError 10 [] 0 (by decide) (by decide) (by decide)

end WdMta
